import Mathlib

/-!
Shallow embedding of `src/homework.py` (a Telegram homework-status bot).

The Python module polls an HTTP API for homework statuses, validates the
decoded JSON envelope, formats the first record into a message and sends it
to a Telegram chat, catching every cycle exception at the loop boundary.

Python values decoded from JSON are embedded as the inductive `Json`;
Python exceptions that can escape the module's functions are `PyExc`
(the source's `raise logging.error(...)` pattern raises `None`, which in
CPython raises `TypeError("exceptions must derive from BaseException")`);
logging is made explicit as a returned list of `LogEntry`; the network and
the Telegram bot are parameters (`HttpOutcome`, `TelegramOutcome`).
-/

namespace HomeworkBot

/-- Python values as decoded from JSON (`response.json()`). -/
inductive Json where
  | null : Json
  | bool : Bool → Json
  | int : Int → Json
  | str : String → Json
  | list : List Json → Json
  | obj : List (String × Json) → Json

/-- Exceptions that can escape the embedded functions: `TypeError`
(also the result of CPython's `raise None`) and `KeyError`. -/
inductive PyExc where
  | typeError : String → PyExc
  | keyError : String → PyExc
deriving DecidableEq

/-- Logging severities used by the module. -/
inductive Level where
  | debug | info | error | critical
deriving DecidableEq

/-- One emitted log line (level and formatted message). -/
structure LogEntry where
  level : Level
  msg : String
deriving DecidableEq

/-- Python `str()` of a decoded JSON value, for the cases the module can
feed to logging or f-strings. -/
def pyStr : Json → String
  | .null => "None"
  | .bool true => "True"
  | .bool false => "False"
  | .int n => toString n
  | .str s => s
  | .list _ => "<list>"
  | .obj _ => "<dict>"

/-- Python `str(type(x))`, used by `check_response`'s error f-string. -/
def pyTypeName : Json → String
  | .null => "<class \x27NoneType\x27>"
  | .bool _ => "<class \x27bool\x27>"
  | .int _ => "<class \x27int\x27>"
  | .str _ => "<class \x27str\x27>"
  | .list _ => "<class \x27list\x27>"
  | .obj _ => "<class \x27dict\x27>"

/-- Python truthiness of a decoded JSON value (`x or y` / `if x`). -/
def Json.truthy : Json → Bool
  | .null => false
  | .bool b => b
  | .int n => n != 0
  | .str s => s != ""
  | .list l => !l.isEmpty
  | .obj kvs => !kvs.isEmpty

/-- Substring test on character lists (Python `needle in haystack` for
strings). -/
def subIn (p : List Char) : List Char → Bool
  | [] => p.isEmpty
  | c :: rest => p.isPrefixOf (c :: rest) || subIn p rest

/-- Python `key in container` for a string key: dict key membership,
substring test on strings, element equality on lists of strings;
`in` on a non-container raises `TypeError`. -/
def pyIn (key : String) : Json → Except PyExc Bool
  | .obj kvs => .ok (kvs.lookup key).isSome
  | .str s => .ok (subIn key.data s.data)
  | .list l => .ok (l.any fun x => match x with | .str t => t == key | _ => false)
  | h => .error (.typeError ("argument of type " ++ pyTypeName h ++ " is not iterable"))

/-- Python `container[key]` for a string key: dict lookup (`KeyError` when
absent), `TypeError` on non-dicts. -/
def pySubscr (j : Json) (key : String) : Except PyExc Json :=
  match j with
  | .obj kvs =>
    match kvs.lookup key with
    | some v => .ok v
    | none => .error (.keyError key)
  | _ => .error (.typeError (pyTypeName j ++ " is not subscriptable"))

/-- The source's `raise logging.error(msg)` idiom: `logging.error` returns
`None`, so the statement logs at error level and then raises
`TypeError("exceptions must derive from BaseException")`. -/
def raiseLoggedError (msg : String) : LogEntry × PyExc :=
  (⟨.error, msg⟩, .typeError "exceptions must derive from BaseException")

/-- Python `str(exception)` as interpolated by `main`'s critical log. -/
def excMsg : PyExc → String
  | .typeError m => m
  | .keyError k => "\x27" ++ k ++ "\x27"

/-- The `HOMEWORK_STATUSES` dict literal (status code → verdict text). -/
def HOMEWORK_STATUSES : List (String × String) :=
  [("approved", "Работа проверена: ревьюеру всё понравилось. Ура!"),
   ("reviewing", "Работа взята на проверку ревьюером."),
   ("rejected", "Работа проверена: у ревьюера есть замечания.")]

/-- `message.replace(chr(10), chr(0))`-style strip: removes every newline
character, as `send_message` does before logging the outgoing text. -/
def stripNewlines (s : String) : String :=
  String.mk (s.data.filter fun c => c != '\n')

/-- Outcome of `bot.send_message`, the external Telegram collaborator:
success with a message id, or one of the three exception classes the
source catches (`error.Unauthorized`, `error.BadRequest`,
`error.TelegramError`). -/
inductive TelegramOutcome where
  | success : Int → TelegramOutcome
  | unauthorized : TelegramOutcome
  | badRequest : String → TelegramOutcome
  | telegramError : String → TelegramOutcome

/-- `send_message(bot, message)`: logs the stripped message at debug level,
sends, and swallows each of the three Telegram exception classes with an
error-level log, falling off the end (returning `None`, here `Option.none`).
The result is `.ok` in every case: no exception propagates. -/
def send_message (outcome : TelegramOutcome) (message : String) :
    List LogEntry × Except PyExc (Option Int) :=
  let dbg : LogEntry :=
    ⟨.debug, "Отправка сообщения в телеграм: " ++ stripNewlines message⟩
  match outcome with
  | .success mid => ([dbg], .ok (some mid))
  | .unauthorized =>
    ([dbg, ⟨.error, "Telegram API не авторизован. Проверьте токен и id чата"⟩],
     .ok none)
  | .badRequest m =>
    ([dbg, ⟨.error, "Ошибка работы с Telegram: " ++ m⟩], .ok none)
  | .telegramError m =>
    ([dbg, ⟨.error, "Ошибка работы с Telegram: " ++ m⟩], .ok none)

/-- Outcome of `requests.get` on this cycle: a network-level
`RequestException`, or an HTTP response with a status code and, when the
body is valid JSON, its decoded value (`none` = `response.json()` would
raise `JSONDecodeError`). -/
inductive HttpOutcome where
  | requestException : String → HttpOutcome
  | response : Int → Option Json → HttpOutcome

/-- `get_api_answer(current_timestamp)`. Returns the emitted logs, the list
of `from_date` parameters of HTTP requests actually issued, and the result.
`current_timestamp or int(time.time(0))` evaluates `time.time(0)` whenever
the cursor is falsy, which raises `TypeError` before any request; a
`RequestException`, a non-200 status and an undecodable body each hit a
`raise logging.error(...)` statement. -/
def get_api_answer (world : HttpOutcome) (current_timestamp : Json) :
    List LogEntry × List Json × Except PyExc Json :=
  let l0 : LogEntry := ⟨.info, "Получение ответа от сервера"⟩
  if current_timestamp.truthy then
    match world with
    | .requestException m =>
      let (le, exc) := raiseLoggedError ("При попытке запроса возникла ошибка: " ++ m)
      ([l0, le], [current_timestamp], .error exc)
    | .response code body =>
      if code != 200 then
        let (le, exc) := raiseLoggedError ("ошибка ответа от сервера. Статус - " ++ toString code)
        ([l0, le], [current_timestamp], .error exc)
      else
        match body with
        | none =>
          let (le, exc) := raiseLoggedError "Ответ от сервера должен быть в формате JSON"
          ([l0, le], [current_timestamp], .error exc)
        | some j =>
          ([l0, ⟨.info, "Получен ответ от сервера"⟩], [current_timestamp], .ok j)
  else
    ([l0], [], .error (.typeError "time.time() takes no arguments (1 given)"))

/-- `check_response(response)`: surfaces a nested error object via
`raise logging.error(response[...][...])` (which raises `TypeError`, see
`raiseLoggedError`), logs `response[chr(39)message...]` when a `code` key is
present, logs when `homeworks` is `None`, rejects non-list `homeworks`
via the same raise-a-`None` idiom, and otherwise returns the `homeworks`
value unchanged. -/
def check_response (response : Json) : List LogEntry × Except PyExc Json :=
  let l0 : LogEntry := ⟨.debug, "Проверка ответа сервера на корректность"⟩
  match pyIn "error" response with
  | .error e => ([l0], .error e)
  | .ok hasErr =>
    let afterErr : List LogEntry × Except PyExc Unit :=
      if hasErr then
        match pySubscr response "error" with
        | .error e => ([], .error e)
        | .ok errObj =>
          match pyIn "error" errObj with
          | .error e => ([], .error e)
          | .ok hasInner =>
            if hasInner then
              match pySubscr errObj "error" with
              | .error e => ([], .error e)
              | .ok innerVal =>
                let (le, exc) := raiseLoggedError (pyStr innerVal)
                ([le], .error exc)
            else ([], .ok ())
      else ([], .ok ())
    match afterErr with
    | (ls, .error e) => (l0 :: ls, .error e)
    | (ls, .ok ()) =>
      let afterCode : List LogEntry × Except PyExc Unit :=
        match pyIn "code" response with
        | .error e => ([], .error e)
        | .ok hasCode =>
          if hasCode then
            match pySubscr response "message" with
            | .error e => ([], .error e)
            | .ok msgVal => ([⟨.info, pyStr msgVal⟩], .ok ())
          else ([], .ok ())
      match afterCode with
      | (ls2, .error e) => (l0 :: ls ++ ls2, .error e)
      | (ls2, .ok ()) =>
        match pySubscr response "homeworks" with
        | .error e => (l0 :: ls ++ ls2, .error e)
        | .ok hw =>
          let ls3 : List LogEntry :=
            match hw with
            | .null => [⟨.info, "Заданий нет"⟩]
            | _ => []
          match hw with
          | .list _ =>
            (l0 :: ls ++ ls2 ++ ls3 ++ [⟨.debug, "Ответ сервера проверен на корректность"⟩],
             .ok hw)
          | _ =>
            let (le, exc) :=
              raiseLoggedError ("Тип - " ++ pyTypeName response ++ " не является списком")
            (l0 :: ls ++ ls2 ++ ls3 ++ [le], .error exc)

/-- `check_response` with the envelope threaded explicitly: the body only
reads the argument (membership tests and subscripts), so the call returns
the envelope it was given, unchanged, next to its output. -/
def check_responseProc (response : Json) :
    Json × (List LogEntry × Except PyExc Json) :=
  (response, check_response response)

/-- `parse_status(homework)`: reads `homework_name` and `status`
(`KeyError` when absent), logs an error when the status is not a key of
`HOMEWORK_STATUSES`, then looks the status up anyway — so an unknown status
raises `KeyError` after the log — and on success returns the formatted
template string. -/
def parse_status (homework : Json) : List LogEntry × Except PyExc String :=
  let l0 : LogEntry := ⟨.debug, "Извлекаю статус домашнего задания"⟩
  match pySubscr homework "homework_name" with
  | .error e => ([l0], .error e)
  | .ok nameVal =>
    match pySubscr homework "status" with
    | .error e => ([l0], .error e)
    | .ok statusVal =>
      let known : Bool :=
        match statusVal with
        | .str s => (HOMEWORK_STATUSES.lookup s).isSome
        | _ => false
      let logs1 : List LogEntry :=
        if known then [l0]
        else [l0, ⟨.error, "Недокументированный статус домашней работы"⟩]
      match statusVal with
      | .str s =>
        match HOMEWORK_STATUSES.lookup s with
        | some verdict =>
          (logs1, .ok ("Изменился статус проверки работы \"" ++ pyStr nameVal
            ++ "\". " ++ verdict))
        | none => (logs1, .error (.keyError s))
      | .list _ => (logs1, .error (.typeError "unhashable type: \x27list\x27"))
      | .obj _ => (logs1, .error (.typeError "unhashable type: \x27dict\x27"))
      | v => (logs1, .error (.keyError (pyStr v)))

/-- `check_tokens()`: returns `False` only when ALL THREE environment
values are `None` (the source joins the three `is None` tests with `and`),
`True` otherwise. Argument order follows the source's condition:
`PRACTICUM_TOKEN`, `TELEGRAM_CHAT_ID`, `TELEGRAM_TOKEN`. -/
def check_tokens (practicum_token telegram_chat_id telegram_token : Option String) : Bool :=
  if practicum_token.isNone && telegram_chat_id.isNone && telegram_token.isNone then
    false
  else
    true

/-- `main`'s startup gate: when `check_tokens()` is false the process logs
a critical message and returns (halts); otherwise it enters the poll loop. -/
def mainStartupProceeds (practicum_token telegram_chat_id telegram_token : Option String) :
    Bool :=
  check_tokens practicum_token telegram_chat_id telegram_token

/-- The external world of one poll cycle: the HTTP outcome for this cycle's
`requests.get` and the Telegram outcome should `send_message` be reached. -/
structure CycleInput where
  http : HttpOutcome
  telegram : TelegramOutcome

/-- Result of the `try` block of one iteration of `main`'s `while True`
loop: logs, messages handed to `send_message`, and either the new cursor
(`response[chr(39)current_date chr(39)]`) or the exception that escaped. -/
structure CycleTry where
  logs : List LogEntry
  sent : List String
  outcome : Except PyExc Json

/-- The `try` block of one `main` loop iteration: fetch, validate, format
and notify on the first record when the list is non-empty, then advance the
cursor to the envelope's `current_date`. Any step's exception aborts the
block (the sleep is not reached). -/
def mainCycleBody (inp : CycleInput) (cursor : Json) : CycleTry :=
  let (logs1, _reqs, res1) := get_api_answer inp.http cursor
  match res1 with
  | .error e => ⟨logs1, [], .error e⟩
  | .ok response =>
    let (logs2, res2) := check_response response
    match res2 with
    | .error e => ⟨logs1 ++ logs2, [], .error e⟩
    | .ok homeworks =>
      let li : LogEntry := ⟨.info, "Список домашних работ получен"⟩
      match homeworks with
      | .list (h :: _) =>
        let (logs3, res3) := parse_status h
        match res3 with
        | .error e => ⟨logs1 ++ logs2 ++ [li] ++ logs3, [], .error e⟩
        | .ok msg =>
          let (logs4, _res4) := send_message inp.telegram msg
          match pySubscr response "current_date" with
          | .error e => ⟨logs1 ++ logs2 ++ [li] ++ logs3 ++ logs4, [msg], .error e⟩
          | .ok cd => ⟨logs1 ++ logs2 ++ [li] ++ logs3 ++ logs4, [msg], .ok cd⟩
      | _ =>
        let le : LogEntry := ⟨.info, "Задания не обнаружены"⟩
        match pySubscr response "current_date" with
        | .error e => ⟨logs1 ++ logs2 ++ [li, le], [], .error e⟩
        | .ok cd => ⟨logs1 ++ logs2 ++ [li, le], [], .ok cd⟩

/-- Observable result of one full iteration of the poll loop, after the
`except Exception` handler: logs, messages handed to the notifier, the
cursor for the next iteration, and whether `time.sleep(RETRY_TIME)` ran
(it does not run on the exception path). -/
structure CycleResult where
  logs : List LogEntry
  sent : List String
  cursor : Json
  slept : Bool

/-- One full iteration of `main`'s loop: the `try` block plus the
`except Exception` handler, which logs at critical severity and leaves the
cursor unchanged; the loop then continues either way. -/
def mainCycle (inp : CycleInput) (cursor : Json) : CycleResult :=
  match mainCycleBody inp cursor with
  | ⟨logs, sent, .ok newCur⟩ => ⟨logs, sent, newCur, true⟩
  | ⟨logs, sent, .error e⟩ =>
    ⟨logs ++ [⟨.critical, "Сбой в работе программы: " ++ excMsg e⟩], sent, cursor, false⟩

/-- Cumulative observation of a finite prefix of the infinite poll loop. -/
structure RunResult where
  cursor : Json
  logs : List LogEntry
  sent : List String

/-- Runs the poll loop through a finite list of per-cycle worlds. Totality
of this function is the loop's liveness: every exception of a cycle is
absorbed by `mainCycle`'s handler and the next cycle runs. -/
def runCycles (cursor : Json) : List CycleInput → RunResult
  | [] => ⟨cursor, [], []⟩
  | inp :: rest =>
    let r := mainCycle inp cursor
    let rr := runCycles r.cursor rest
    ⟨rr.cursor, r.logs ++ rr.logs, r.sent ++ rr.sent⟩

end HomeworkBot
namespace HomeworkBot

/-! ## Claim theorems -/

/-- Helper: a cycle whose fetch hits a `RequestException` logs the error,
raises the `TypeError` produced by `raise logging.error(...)`, and the
loop's handler logs critical and keeps the cursor. -/
theorem mainCycle_requestException (m : String) (g : TelegramOutcome) (cursor : Json)
    (hc : cursor.truthy = true) :
    mainCycle ⟨.requestException m, g⟩ cursor =
      ⟨[⟨.info, "Получение ответа от сервера"⟩,
        ⟨.error, "При попытке запроса возникла ошибка: " ++ m⟩,
        ⟨.critical, "Сбой в работе программы: exceptions must derive from BaseException"⟩],
       [], cursor, false⟩ := by
  simp [mainCycle, mainCycleBody, get_api_answer, hc, raiseLoggedError, excMsg]

/-- C1: every exception escaping a cycle's fetch/validate/format/notify
steps is caught by `main`'s `except Exception` handler, which appends a
critical-severity log and leaves the cursor unchanged without sleeping;
and a run with three consecutive transport errors completes all three
cycles (the process does not terminate), logging each at critical severity
with the cursor still at its initial value and nothing sent. -/
theorem C1_loop_contains_cycle_exceptions :
    (∀ (inp : CycleInput) (cursor : Json) (logs : List LogEntry)
        (sent : List String) (e : PyExc),
      mainCycleBody inp cursor = ⟨logs, sent, .error e⟩ →
      mainCycle inp cursor =
        ⟨logs ++ [⟨.critical, "Сбой в работе программы: " ++ excMsg e⟩],
         sent, cursor, false⟩) ∧
    (∀ (t : Int), t ≠ 0 → ∀ (m1 m2 m3 : String) (g1 g2 g3 : TelegramOutcome),
      runCycles (.int t)
        [⟨.requestException m1, g1⟩, ⟨.requestException m2, g2⟩,
         ⟨.requestException m3, g3⟩] =
        ⟨.int t,
         [⟨.info, "Получение ответа от сервера"⟩,
          ⟨.error, "При попытке запроса возникла ошибка: " ++ m1⟩,
          ⟨.critical, "Сбой в работе программы: exceptions must derive from BaseException"⟩,
          ⟨.info, "Получение ответа от сервера"⟩,
          ⟨.error, "При попытке запроса возникла ошибка: " ++ m2⟩,
          ⟨.critical, "Сбой в работе программы: exceptions must derive from BaseException"⟩,
          ⟨.info, "Получение ответа от сервера"⟩,
          ⟨.error, "При попытке запроса возникла ошибка: " ++ m3⟩,
          ⟨.critical, "Сбой в работе программы: exceptions must derive from BaseException"⟩],
         []⟩) := by
  constructor
  · intro inp cursor logs sent e h
    unfold mainCycle
    rw [h]
  · intro t ht m1 m2 m3 g1 g2 g3
    have hc : (Json.int t).truthy = true := by simpa [Json.truthy] using ht
    simp [runCycles, mainCycle_requestException _ _ _ hc]

/-- Witness for C1 at concrete inputs: one failed cycle, and a run of
three transport-error cycles. -/
theorem C1_loop_contains_cycle_exceptions_witness :
    mainCycle ⟨.requestException "boom", .success 1⟩ (.int 5) =
      ⟨[⟨.info, "Получение ответа от сервера"⟩,
        ⟨.error, "При попытке запроса возникла ошибка: boom"⟩]
       ++ [⟨.critical, "Сбой в работе программы: "
         ++ excMsg (.typeError "exceptions must derive from BaseException")⟩],
       [], .int 5, false⟩ ∧
    runCycles (.int 5)
      [⟨.requestException "a", .success 0⟩, ⟨.requestException "b", .success 0⟩,
       ⟨.requestException "c", .success 0⟩] =
      ⟨.int 5,
       [⟨.info, "Получение ответа от сервера"⟩,
        ⟨.error, "При попытке запроса возникла ошибка: a"⟩,
        ⟨.critical, "Сбой в работе программы: exceptions must derive from BaseException"⟩,
        ⟨.info, "Получение ответа от сервера"⟩,
        ⟨.error, "При попытке запроса возникла ошибка: b"⟩,
        ⟨.critical, "Сбой в работе программы: exceptions must derive from BaseException"⟩,
        ⟨.info, "Получение ответа от сервера"⟩,
        ⟨.error, "При попытке запроса возникла ошибка: c"⟩,
        ⟨.critical, "Сбой в работе программы: exceptions must derive from BaseException"⟩],
       []⟩ := by
  constructor
  · exact C1_loop_contains_cycle_exceptions.1 ⟨.requestException "boom", .success 1⟩
      (.int 5)
      [⟨.info, "Получение ответа от сервера"⟩,
       ⟨.error, "При попытке запроса возникла ошибка: boom"⟩]
      [] (.typeError "exceptions must derive from BaseException") rfl
  · exact C1_loop_contains_cycle_exceptions.2 5 (by decide) "a" "b" "c" _ _ _

/-- C2: the claim says any single absent credential makes `check_tokens`
return `False`; in the code the three `is None` tests are joined with
`and`, so `check_tokens` returns `True` (and `main` proceeds into the
loop) whenever at least one credential is present, and returns `False`
only when all three are absent. -/
theorem C2_check_tokens_all_absent_only :
    check_tokens none (some "chat") (some "token") = true ∧
    mainStartupProceeds none (some "chat") (some "token") = true ∧
    check_tokens (some "api") none none = true ∧
    check_tokens none none none = false :=
  ⟨rfl, rfl, rfl, rfl⟩

/-- C3 counterexample: on a record with unknown status, `parse_status`
does not return a display string — after logging it raises
`KeyError` from the unguarded catalog lookup. -/
theorem C3_unknown_status_counterexample :
    parse_status (Json.obj [("homework_name", .str "hw1"), ("status", .str "weird")]) =
      ([⟨.debug, "Извлекаю статус домашнего задания"⟩,
        ⟨.error, "Недокументированный статус домашней работы"⟩],
       .error (.keyError "weird")) := rfl

/-- C3 amended: for every record whose status string is not a key of
`HOMEWORK_STATUSES`, `parse_status` logs the condition at error level and
then raises `KeyError` on the catalog lookup, failing the cycle instead of
returning a fallback string. -/
theorem C3_unknown_status_logs_then_raises (name : Json) (s : String)
    (h : HOMEWORK_STATUSES.lookup s = none) :
    parse_status (Json.obj [("homework_name", name), ("status", .str s)]) =
      ([⟨.debug, "Извлекаю статус домашнего задания"⟩,
        ⟨.error, "Недокументированный статус домашней работы"⟩],
       .error (.keyError s)) := by
  have h1 : pySubscr (Json.obj [("homework_name", name), ("status", .str s)])
      "homework_name" = .ok name := rfl
  have h2 : pySubscr (Json.obj [("homework_name", name), ("status", .str s)])
      "status" = .ok (.str s) := rfl
  simp [parse_status, h1, h2, h]

/-- Witness for the amended C3 at a concrete unknown status. -/
theorem C3_unknown_status_logs_then_raises_witness :
    parse_status (Json.obj [("homework_name", .str "hw2"), ("status", .str "oddstatus")]) =
      ([⟨.debug, "Извлекаю статус домашнего задания"⟩,
        ⟨.error, "Недокументированный статус домашней работы"⟩],
       .error (.keyError "oddstatus")) :=
  C3_unknown_status_logs_then_raises (.str "hw2") "oddstatus" rfl

/-- C4: for every non-200 status code the fetch fails before JSON decoding
(the result does not depend on the body), but the raised exception is the
`TypeError` produced by `raise None` — the status code reaches only the
error log, not the exception. -/
theorem C4_non200_raises_before_decoding (code : Int) (h : code ≠ 200)
    (body : Option Json) (ts : Json) (ht : ts.truthy = true) :
    get_api_answer (.response code body) ts =
      ([⟨.info, "Получение ответа от сервера"⟩,
        ⟨.error, "ошибка ответа от сервера. Статус - " ++ toString code⟩], [ts],
       .error (.typeError "exceptions must derive from BaseException")) := by
  simp [get_api_answer, ht, raiseLoggedError, h]

/-- Witness for C4 at status 404 with an arbitrary body present. -/
theorem C4_non200_raises_before_decoding_witness :
    get_api_answer (.response 404 (some (.str "ignored"))) (.int 3) =
      ([⟨.info, "Получение ответа от сервера"⟩,
        ⟨.error, "ошибка ответа от сервера. Статус - 404"⟩], [.int 3],
       .error (.typeError "exceptions must derive from BaseException")) := by
  exact C4_non200_raises_before_decoding 404 (by decide) (some (.str "ignored"))
    (.int 3) rfl

/-- C5 counterexample: for an envelope whose `homeworks` field is null the
validator does not return an empty sequence — it logs and then raises the
`TypeError` produced by `raise logging.error(...)`. -/
theorem C5_null_homeworks_counterexample :
    check_response (Json.obj [("homeworks", .null), ("current_date", .int 5)]) =
      ([⟨.debug, "Проверка ответа сервера на корректность"⟩,
        ⟨.info, "Заданий нет"⟩,
        ⟨.error, "Тип - <class \x27dict\x27> не является списком"⟩],
       .error (.typeError "exceptions must derive from BaseException")) := rfl

/-- C5 amended: for an envelope whose `homeworks` is an empty list the
validator returns the empty list and the loop advances the cursor to the
envelope's `current_date`, sending nothing; but `homeworks` equal to null
raises `TypeError` (after the `no work` log) and an absent `homeworks` key
raises `KeyError`, each failing the cycle. -/
theorem C5_empty_list_ok_null_absent_raise (cd : Json) (ts : Json)
    (ht : ts.truthy = true) (g : TelegramOutcome) :
    check_response (Json.obj [("homeworks", .list []), ("current_date", cd)]) =
      ([⟨.debug, "Проверка ответа сервера на корректность"⟩,
        ⟨.debug, "Ответ сервера проверен на корректность"⟩], .ok (.list [])) ∧
    mainCycle
      ⟨.response 200 (some (Json.obj [("homeworks", .list []), ("current_date", cd)])), g⟩
      ts =
      ⟨[⟨.info, "Получение ответа от сервера"⟩,
        ⟨.info, "Получен ответ от сервера"⟩,
        ⟨.debug, "Проверка ответа сервера на корректность"⟩,
        ⟨.debug, "Ответ сервера проверен на корректность"⟩,
        ⟨.info, "Список домашних работ получен"⟩,
        ⟨.info, "Задания не обнаружены"⟩],
       [], cd, true⟩ ∧
    (check_response (Json.obj [("homeworks", .null), ("current_date", cd)])).2 =
      .error (.typeError "exceptions must derive from BaseException") ∧
    (check_response (Json.obj [("current_date", cd)])).2 = .error (.keyError "homeworks") := by
  refine ⟨rfl, ?_, rfl, rfl⟩
  simp only [mainCycle, mainCycleBody, get_api_answer, ht, if_true]
  rfl

/-- Witness for the amended C5 at a concrete envelope and cursor. -/
theorem C5_empty_list_ok_null_absent_raise_witness :
    mainCycle
      ⟨.response 200 (some (Json.obj [("homeworks", .list []), ("current_date", .int 9)])),
       .success 1⟩ (.int 5) =
      ⟨[⟨.info, "Получение ответа от сервера"⟩,
        ⟨.info, "Получен ответ от сервера"⟩,
        ⟨.debug, "Проверка ответа сервера на корректность"⟩,
        ⟨.debug, "Ответ сервера проверен на корректность"⟩,
        ⟨.info, "Список домашних работ получен"⟩,
        ⟨.info, "Задания не обнаружены"⟩],
       [], .int 9, true⟩ :=
  (C5_empty_list_ok_null_absent_raise (.int 9) (.int 5) rfl (.success 1)).2.1

/-- C6: for every record whose status is a key of the catalog,
`parse_status` returns exactly the template string with the record's name
and the catalog verdict substituted. -/
theorem C6_known_status_formats_exact (name s verdict : String)
    (h : HOMEWORK_STATUSES.lookup s = some verdict) :
    parse_status (Json.obj [("homework_name", .str name), ("status", .str s)]) =
      ([⟨.debug, "Извлекаю статус домашнего задания"⟩],
       .ok ("Изменился статус проверки работы \"" ++ name ++ "\". " ++ verdict)) := by
  have h1 : pySubscr (Json.obj [("homework_name", .str name), ("status", .str s)])
      "homework_name" = .ok (.str name) := rfl
  have h2 : pySubscr (Json.obj [("homework_name", .str name), ("status", .str s)])
      "status" = .ok (.str s) := rfl
  simp [parse_status, h1, h2, h, pyStr]

/-- Witness for C6: the approved scenario yields the exact message of the
spec. -/
theorem C6_known_status_formats_exact_witness :
    parse_status (Json.obj [("homework_name", .str "hw1"), ("status", .str "approved")]) =
      ([⟨.debug, "Извлекаю статус домашнего задания"⟩],
       .ok "Изменился статус проверки работы \"hw1\". Работа проверена: ревьюеру всё понравилось. Ура!") := by
  exact C6_known_status_formats_exact "hw1" "approved"
    "Работа проверена: ревьюеру всё понравилось. Ура!" rfl

/-- C7: for the envelope with a nested error object the validator does log
the embedded message, but the exception it raises is the `TypeError` from
`raise None`, not a `RemoteError` carrying the message; the cycle fails,
the cursor stays unchanged and nothing is sent. -/
theorem C7_nested_error_raises_typeError :
    check_response (Json.obj [("error", .obj [("error", .str "bad token")])]) =
      ([⟨.debug, "Проверка ответа сервера на корректность"⟩, ⟨.error, "bad token"⟩],
       .error (.typeError "exceptions must derive from BaseException")) ∧
    mainCycle
      ⟨.response 200 (some (Json.obj [("error", .obj [("error", .str "bad token")])])),
       .success 1⟩ (.int 1700000000) =
      ⟨[⟨.info, "Получение ответа от сервера"⟩,
        ⟨.info, "Получен ответ от сервера"⟩,
        ⟨.debug, "Проверка ответа сервера на корректность"⟩,
        ⟨.error, "bad token"⟩,
        ⟨.critical, "Сбой в работе программы: exceptions must derive from BaseException"⟩],
       [], .int 1700000000, false⟩ :=
  ⟨rfl, rfl⟩

/-- C8: for every message, `send_message` returns normally in all four
outcomes; each of the three failure classes is logged at error level and
swallowed (the function returns `None`), never propagated. -/
theorem C8_notify_swallows_failures (message em : String) (mid : Int) :
    (∀ o : TelegramOutcome, ∃ v, (send_message o message).2 = .ok v) ∧
    send_message (.success mid) message =
      ([⟨.debug, "Отправка сообщения в телеграм: " ++ stripNewlines message⟩],
       .ok (some mid)) ∧
    send_message .unauthorized message =
      ([⟨.debug, "Отправка сообщения в телеграм: " ++ stripNewlines message⟩,
        ⟨.error, "Telegram API не авторизован. Проверьте токен и id чата"⟩],
       .ok none) ∧
    send_message (.badRequest em) message =
      ([⟨.debug, "Отправка сообщения в телеграм: " ++ stripNewlines message⟩,
        ⟨.error, "Ошибка работы с Telegram: " ++ em⟩], .ok none) ∧
    send_message (.telegramError em) message =
      ([⟨.debug, "Отправка сообщения в телеграм: " ++ stripNewlines message⟩,
        ⟨.error, "Ошибка работы с Telegram: " ++ em⟩], .ok none) := by
  refine ⟨fun o => ?_, rfl, rfl, rfl, rfl⟩
  cases o <;> exact ⟨_, rfl⟩

/-- C9: the validator is pure and idempotent — threaded explicitly, the
call hands back the envelope unchanged, and a second call on that envelope
yields the identical output. -/
theorem C9_validator_idempotent (response : Json) :
    (check_responseProc response).1 = response ∧
    check_responseProc ((check_responseProc response).1) = check_responseProc response :=
  ⟨rfl, rfl⟩

/-- C10: for every falsy cursor value, `get_api_answer` raises `TypeError`
from `time.time(0)` before any HTTP request is issued (the issued-request
list is empty and the result does not depend on the network world). -/
theorem C10_falsy_cursor_typeError_before_request (world : HttpOutcome)
    (cursor : Json) (h : cursor.truthy = false) :
    get_api_answer world cursor =
      ([⟨.info, "Получение ответа от сервера"⟩], [],
       .error (.typeError "time.time() takes no arguments (1 given)")) := by
  simp [get_api_answer, h]

/-- Witness for C10 at cursor 0 with a healthy network. -/
theorem C10_falsy_cursor_typeError_before_request_witness :
    get_api_answer (.response 200 (some (.list []))) (.int 0) =
      ([⟨.info, "Получение ответа от сервера"⟩], [],
       .error (.typeError "time.time() takes no arguments (1 given)")) :=
  C10_falsy_cursor_typeError_before_request (.response 200 (some (.list []))) (.int 0) rfl

end HomeworkBot
